import Mathlib

/-!
Shallow embedding of the review-to-product rating aggregation workflow of the
fastapi_ecommerce repository (files `app/routers/reviews.py`,
`app/routers/products.py`, `app/models/reviews.py`, `app/schemas.py`).

The database session is modelled as an explicit state (`DB`) holding the
category, product and review tables as lists of rows; each HTTP handler
becomes a function from the state (plus its request arguments) to an
`Except ApiError` result carrying the new state.  SQL numeric values
(`Product.rating`, `avg(grade)`) are modelled as exact rationals (`ℚ`).
-/

namespace EcommerceRating

/-- Row of the `categories` table (`app/models/categories.py` as used by
`app/routers/products.py`): id, name, optional parent, soft-delete flag. -/
structure Category where
  id : Nat
  name : String
  parentId : Option Nat
  isActive : Bool
deriving Repr, DecidableEq

/-- Row of the `products` table: the fields the routers read and write
(`app/schemas.py` `Product`): id, name, description, price, image_url,
stock, category_id, seller_id, soft-delete flag `is_active`, and the cached
`rating`. -/
structure Product where
  id : Nat
  name : String
  description : Option String
  price : ℚ
  imageUrl : Option String
  stock : Int
  categoryId : Nat
  sellerId : Nat
  isActive : Bool
  rating : ℚ
deriving Repr, DecidableEq

/-- Row of the `reviews` table (`app/models/reviews.py`): id, user_id,
product_id, optional comment, comment_date (abstract timestamp), integer
grade, soft-delete flag `is_active` (default true). -/
structure Review where
  id : Nat
  userId : Nat
  productId : Nat
  comment : Option String
  commentDate : Nat
  grade : Int
  isActive : Bool
deriving Repr, DecidableEq

/-- Request body for product creation and update (`app/schemas.py`
`ProductCreate`): note it has no `rating` and no `is_active` field. -/
structure ProductCreate where
  name : String
  description : Option String
  price : ℚ
  imageUrl : Option String
  stock : Int
  categoryId : Nat
deriving Repr, DecidableEq

/-- Request body for review creation (`app/schemas.py` `ReviewCreate`). -/
structure ReviewCreate where
  productId : Nat
  comment : Option String
  grade : Int
deriving Repr, DecidableEq

/-- The database state: the three tables plus autoincrement counters for
fresh primary keys. -/
structure DB where
  categories : List Category
  products : List Product
  reviews : List Review
  nextProductId : Nat
  nextReviewId : Nat
deriving Repr, DecidableEq

/-- Errors a handler can surface: `http c d` models
`HTTPException(status_code=c, detail=d)`; `attrErrorNoneType` models the
Python `AttributeError` raised by `product.rating = ...` when
`db.get(ProductModel, product_id)` returned `None`. -/
inductive ApiError where
  | http (statusCode : Nat) (detail : String)
  | attrErrorNoneType
deriving Repr, DecidableEq

/-- The grades of the rows returned by
`select(...).where(Review.product_id == product_id, Review.is_active == True)`. -/
def activeGrades (db : DB) (productId : Nat) : List Int :=
  (db.reviews.filter (fun r => r.productId == productId && r.isActive)).map Review.grade

/-- SQL `avg` aggregate: `NULL` (here `none`) over an empty row set,
otherwise the arithmetic mean. -/
def sqlAvg (gs : List Int) : Option ℚ :=
  if gs.isEmpty then none else some ((gs.sum : ℚ) / (gs.length : ℚ))

/-- Python `result.scalar() or 0.0`: `None` (and a falsy `0.0`) becomes `0.0`. -/
def scalarOrZero (x : Option ℚ) : ℚ :=
  match x with
  | none => 0
  | some v => if v = 0 then 0 else v

/-- `db.get(ProductModel, product_id)`: primary-key lookup, ignoring
`is_active`. -/
def dbGetProduct (db : DB) (productId : Nat) : Option Product :=
  db.products.find? (fun p => p.id == productId)

/-- `update_product_rating` (`app/routers/reviews.py`, lines 17-31): read
`avg(grade)` over the active reviews of the product, apply `or 0.0`, load the
product by primary key, assign its `rating`, commit.  When the product row is
absent, `product.rating = avg_rating` raises on `None` before anything is
written. -/
def updateProductRating (db : DB) (productId : Nat) : Except ApiError DB :=
  let avgRating := scalarOrZero (sqlAvg (activeGrades db productId))
  match dbGetProduct db productId with
  | none => .error .attrErrorNoneType
  | some _ => .ok { db with
      products := db.products.map (fun p =>
        if p.id == productId then { p with rating := avgRating } else p) }

/-- The review row `create_review` inserts:
`ReviewModel(**review.model_dump(), user_id=current_user.id)` with the
database filling in a fresh id, the timestamp and `is_active = True`. -/
def newReview (db : DB) (rc : ReviewCreate) (uid now : Nat) : Review :=
  { id := db.nextReviewId, userId := uid, productId := rc.productId,
    comment := rc.comment, commentDate := now, grade := rc.grade,
    isActive := true }

/-- The state once `create_review`'s `db.add(db_review); await db.commit()`
has run: the new row appended to the review table. -/
def insertReview (db : DB) (rc : ReviewCreate) (uid now : Nat) : DB :=
  { db with
    reviews := db.reviews ++ [newReview db rc uid now],
    nextReviewId := db.nextReviewId + 1 }

/-- The state once `delete_review`'s
`update(ReviewModel).where(ReviewModel.id == review_id).values(is_active=False)`
has committed. -/
def deactivateReview (db : DB) (rid : Nat) : DB :=
  { db with reviews := db.reviews.map (fun r =>
      if r.id == rid then { r with isActive := false } else r) }

/-- `create_review` (`app/routers/reviews.py`, lines 61-88): check the
product exists and is active (404), check `1 <= grade <= 5` (400), insert the
review row (active, fresh id), commit, then recompute the product rating. -/
def createReview (db : DB) (review : ReviewCreate) (currentUserId : Nat)
    (now : Nat) : Except ApiError (DB × Review) :=
  if (db.products.find? (fun p => p.id == review.productId && p.isActive)).isNone then
    .error (.http 404 "Product not found or inactive")
  else if ¬(1 ≤ review.grade ∧ review.grade ≤ 5) then
    .error (.http 400 "Grade should be from 1 to 5")
  else
    match updateProductRating (insertReview db review currentUserId now)
        review.productId with
    | .error e => .error e
    | .ok db2 => .ok (db2, newReview db review currentUserId now)

/-- `delete_review` (`app/routers/reviews.py`, lines 90-114): find the active
review (404 otherwise), flip its `is_active` to false, commit, then recompute
the rating of the product it references. -/
def deleteReview (db : DB) (reviewId : Nat) : Except ApiError (DB × String) :=
  match db.reviews.find? (fun r => r.id == reviewId && r.isActive) with
  | none => .error (.http 404 "Review not found or inactive")
  | some review =>
    match updateProductRating (deactivateReview db reviewId)
        review.productId with
    | .error e => .error e
    | .ok db2 => .ok (db2, "Review deleted")

/-- Modelled from the spec: the default `rating` of a freshly inserted
product row.  The Product ORM model (`app/models/products.py`, which carries
the column default for `rating`) is not among the provided sources; the spec
states that a product with no active reviews has rating 0.0, and a new
product has no reviews. -/
def newProductDefaultRating : ℚ := 0

/-- `create_product` (`app/routers/products.py`, lines 34-52): check the
category exists and is active (400), insert the product row bound to the
current seller, commit. -/
def createProduct (db : DB) (product : ProductCreate) (currentUserId : Nat) :
    Except ApiError (DB × Product) :=
  if (db.categories.find? (fun c => c.id == product.categoryId && c.isActive)).isNone then
    .error (.http 400 "Category not found or inactive")
  else
    let dbProduct : Product :=
      { id := db.nextProductId, name := product.name,
        description := product.description, price := product.price,
        imageUrl := product.imageUrl, stock := product.stock,
        categoryId := product.categoryId, sellerId := currentUserId,
        isActive := true, rating := newProductDefaultRating }
    .ok ({ db with
      products := db.products ++ [dbProduct],
      nextProductId := db.nextProductId + 1 }, dbProduct)

/-- `update_product` (`app/routers/products.py`, lines 88-114): find the
product by id (404), check ownership (403), check the category (400), then
overwrite exactly the `ProductCreate` fields of the row (neither `rating`
nor `is_active` is among them). -/
def updateProduct (db : DB) (productId : Nat) (product : ProductCreate)
    (currentUserId : Nat) : Except ApiError (DB × Product) :=
  match db.products.find? (fun p => p.id == productId) with
  | none => .error (.http 404 "Product not found")
  | some dbProduct =>
    if dbProduct.sellerId ≠ currentUserId then
      .error (.http 403 "You can only update your own products")
    else if (db.categories.find? (fun c => c.id == product.categoryId && c.isActive)).isNone then
      .error (.http 400 "Category not found or inactive")
    else
      let upd : Product → Product := fun p =>
        if p.id == productId then
          { p with name := product.name, description := product.description,
                   price := product.price, imageUrl := product.imageUrl,
                   stock := product.stock, categoryId := product.categoryId }
        else p
      .ok ({ db with products := db.products.map upd }, upd dbProduct)

/-- `delete_product` (`app/routers/products.py`, lines 117-139): find the
active product (404), check ownership (403), set `is_active = False`. -/
def deleteProduct (db : DB) (productId : Nat) (currentUserId : Nat) :
    Except ApiError (DB × Product) :=
  match db.products.find? (fun p => p.id == productId && p.isActive) with
  | none => .error (.http 404 "Product not found or inactive")
  | some product =>
    if product.sellerId ≠ currentUserId then
      .error (.http 403 "You can only delete your own products")
    else
      let upd : Product → Product := fun p =>
        if p.id == productId then { p with isActive := false } else p
      .ok ({ db with products := db.products.map upd }, upd product)

/-- `get_all_products` (`app/routers/products.py`, lines 21-31): active
products in an active category with positive stock; reads only. -/
def getAllProducts (db : DB) : DB × List Product :=
  (db, db.products.filter (fun p =>
    p.isActive
      && db.categories.any (fun c => c.id == p.categoryId && c.isActive)
      && decide (0 < p.stock)))

/-- `get_products_by_category` (`app/routers/products.py`, lines 55-72). -/
def getProductsByCategory (db : DB) (categoryId : Nat) :
    Except ApiError (DB × List Product) :=
  match db.categories.find? (fun c => c.id == categoryId && c.isActive) with
  | none => .error (.http 404 "Category not found or inactive")
  | some _ => .ok (db, db.products.filter (fun p =>
      p.isActive && p.categoryId == categoryId))

/-- `get_product` (`app/routers/products.py`, lines 75-86). -/
def getProduct (db : DB) (productId : Nat) : Except ApiError (DB × Product) :=
  match db.products.find? (fun p => p.id == productId && p.isActive) with
  | none => .error (.http 404 "Product not found or inactive")
  | some product => .ok (db, product)

/-- `get_all_reviews` (`app/routers/reviews.py`, lines 33-41). -/
def getAllReviews (db : DB) : DB × List Review :=
  (db, db.reviews.filter (fun r => r.isActive))

/-- `get_review_by_product` (`app/routers/reviews.py`, lines 43-59). -/
def getReviewByProduct (db : DB) (productId : Nat) :
    Except ApiError (DB × List Review) :=
  match db.products.find? (fun p => p.id == productId && p.isActive) with
  | none => .error (.http 404 "Product not found or inactive")
  | some _ => .ok (db, (db.reviews.filter (fun r => r.isActive)).filter
      (fun r => r.productId == productId))

/-- The mean the spec asks for: arithmetic mean of the grades, 0 when there
are none. -/
def meanOrZero (gs : List Int) : ℚ :=
  if gs.isEmpty then 0 else (gs.sum : ℚ) / (gs.length : ℚ)

/-- The persisted rating of the product with the given id, when that row
exists. -/
def ratingOf (db : DB) (productId : Nat) : Option ℚ :=
  (dbGetProduct db productId).map Product.rating

/-! ### The successful paths of the handlers, as explicit state transformers -/

/-- The write `update_product_rating` performs when the product row exists:
set the rating of the row with the given id to the recomputed value. -/
def ratingWrite (db : DB) (productId : Nat) : DB :=
  { db with products := db.products.map (fun p =>
      if p.id == productId then
        { p with rating := meanOrZero (activeGrades db productId) }
      else p) }

/-! ### Concrete states used to instantiate the theorems -/

def catW : Category :=
  { id := 1, name := "books", parentId := none, isActive := true }

def prodW : Product :=
  { id := 1, name := "widget", description := none, price := 10,
    imageUrl := none, stock := 3, categoryId := 1, sellerId := 2,
    isActive := true, rating := 0 }

def revW (i : Nat) (g : Int) (b : Bool) : Review :=
  { id := i, userId := 7, productId := 1, comment := none, commentDate := 0,
    grade := g, isActive := b }

/-- One product with two active reviews of grades 4 and 2. -/
def dbTwoReviews : DB :=
  { categories := [catW], products := [prodW],
    reviews := [revW 1 4 true, revW 2 2 true],
    nextProductId := 2, nextReviewId := 3 }

/-- `dbTwoReviews` after the rating recomputation: mean of 4 and 2 is 3. -/
def dbTwoReviewsAfter : DB :=
  { dbTwoReviews with products := [{ prodW with rating := 3 }] }

/-- One product with three active reviews of grades 5, 5 and 1. -/
def dbThreeReviews : DB :=
  { categories := [catW], products := [prodW],
    reviews := [revW 1 5 true, revW 2 5 true, revW 3 1 true],
    nextProductId := 2, nextReviewId := 4 }

/-- One active product with no reviews at all. -/
def dbNoReviews : DB :=
  { categories := [catW], products := [prodW], reviews := [],
    nextProductId := 2, nextReviewId := 1 }

/-- A state with no product rows. -/
def dbNoProducts : DB :=
  { categories := [], products := [], reviews := [],
    nextProductId := 1, nextReviewId := 1 }

/-- A review-creation request for product 1 with the given grade. -/
def rcGrade (g : Int) : ReviewCreate :=
  { productId := 1, comment := none, grade := g }

/-! ### Basic lemmas -/

theorem scalarOrZero_sqlAvg (gs : List Int) :
    scalarOrZero (sqlAvg gs) = meanOrZero gs := by
  unfold scalarOrZero sqlAvg meanOrZero
  by_cases h : gs.isEmpty
  · simp [h]
  · simp only [h, Bool.false_eq_true, if_false]
    rcases eq_or_ne ((gs.sum : ℚ) / (gs.length : ℚ)) 0 with hz | hz
    · rw [if_pos hz, hz]
    · rw [if_neg hz]

theorem updateProductRating_ok (db : DB) (pid : Nat) (p : Product)
    (h : dbGetProduct db pid = some p) :
    updateProductRating db pid = .ok (ratingWrite db pid) := by
  simp only [updateProductRating, ratingWrite, h, scalarOrZero_sqlAvg]

theorem updateProductRating_err (db : DB) (pid : Nat)
    (h : dbGetProduct db pid = none) :
    updateProductRating db pid = .error .attrErrorNoneType := by
  simp only [updateProductRating, h]

theorem activeGrades_ratingWrite (db : DB) (pid i : Nat) :
    activeGrades (ratingWrite db pid) i = activeGrades db i := rfl

theorem ratingWrite_reviews (db : DB) (pid : Nat) :
    (ratingWrite db pid).reviews = db.reviews := rfl

/-- `find?` commutes with a map that does not change the predicate's value. -/
theorem find?_map_pred {α : Type} (f : α → α) (p : α → Bool)
    (h : ∀ x, p (f x) = p x) :
    ∀ l : List α, (l.map f).find? p = (l.find? p).map f
  | [] => rfl
  | a :: t => by
    cases hpa : p a with
    | true =>
      rw [List.map_cons, List.find?_cons_of_pos _ (by rw [h a, hpa]),
        List.find?_cons_of_pos _ hpa, Option.map_some']
    | false =>
      rw [List.map_cons, List.find?_cons_of_neg _ (by simp [h a, hpa]),
        List.find?_cons_of_neg _ (by simp [hpa]), find?_map_pred f p h t]

theorem dbGetProduct_def (db : DB) (i : Nat) :
    dbGetProduct db i = db.products.find? (fun q => q.id == i) := rfl

/-- A product found by primary key satisfies the key predicate. -/
theorem dbGetProduct_id (db : DB) (i : Nat) (p : Product)
    (h : dbGetProduct db i = some p) : (p.id == i) = true :=
  @List.find?_some _ (fun q => q.id == i) p db.products (dbGetProduct_def db i ▸ h)

theorem dbGetProduct_ratingWrite (db : DB) (pid i : Nat) :
    dbGetProduct (ratingWrite db pid) i =
      (dbGetProduct db i).map (fun p =>
        if p.id == pid then
          { p with rating := meanOrZero (activeGrades db pid) }
        else p) := by
  unfold dbGetProduct ratingWrite
  exact find?_map_pred _ _ (fun x => by split <;> rfl) db.products

theorem ratingOf_ratingWrite_self (db : DB) (pid : Nat) (p : Product)
    (h : dbGetProduct db pid = some p) :
    ratingOf (ratingWrite db pid) pid =
      some (meanOrZero (activeGrades db pid)) := by
  have hp : (p.id == pid) = true := dbGetProduct_id db pid p h
  unfold ratingOf
  rw [dbGetProduct_ratingWrite, h, Option.map_some', Option.map_some', hp,
    if_pos rfl]

theorem ratingOf_ratingWrite_other (db : DB) (pid q : Nat) (hne : q ≠ pid) :
    ratingOf (ratingWrite db pid) q = ratingOf db q := by
  unfold ratingOf
  rw [dbGetProduct_ratingWrite]
  cases hf : dbGetProduct db q with
  | none => rfl
  | some a =>
    have ha : (a.id == q) = true := dbGetProduct_id db q a hf
    have hb : (a.id == pid) = false := by
      rw [Nat.beq_eq_true_eq] at ha
      simp [ha, hne]
    rw [Option.map_some', Option.map_some', hb]
    rfl

/-- The active-product lookup of the routers implies the primary-key lookup
of the aggregator succeeds. -/
theorem dbGetProduct_isSome_of_activeFind (db : DB) (pid : Nat)
    (h : (db.products.find? (fun q => q.id == pid && q.isActive)).isSome) :
    (dbGetProduct db pid).isSome := by
  rw [dbGetProduct_def, List.find?_isSome]
  rw [List.find?_isSome] at h
  obtain ⟨x, hx, hpx⟩ := h
  rw [Bool.and_eq_true] at hpx
  exact ⟨x, hx, hpx.1⟩

/-- The rating write changes neither the id nor the `is_active` flag of any
product row, so the routers' active-product lookup is unaffected. -/
theorem activeFind_ratingWrite (db : DB) (pid i : Nat) :
    ((ratingWrite db pid).products.find? (fun q => q.id == i && q.isActive)).isSome =
      (db.products.find? (fun q => q.id == i && q.isActive)).isSome := by
  show ((db.products.map _).find? _).isSome = _
  rw [find?_map_pred _ _ (fun x => by split <;> rfl), Option.isSome_map']

/-- Inserting the new active review row appends its grade to the active
grades of its product. -/
theorem activeGrades_insertReview (db : DB) (rc : ReviewCreate)
    (uid now : Nat) :
    activeGrades (insertReview db rc uid now) rc.productId =
      activeGrades db rc.productId ++ [rc.grade] := by
  unfold activeGrades insertReview newReview
  simp [List.filter_append]

/-- The insert leaves the product table unchanged. -/
theorem insertReview_products (db : DB) (rc : ReviewCreate) (uid now : Nat) :
    (insertReview db rc uid now).products = db.products := rfl

/-- Soft-deleting one review row restricts the active rows to those with a
different id. -/
theorem filter_deactivate (rid pid : Nat) :
    ∀ l : List Review,
      ((l.map (fun r => if r.id == rid then { r with isActive := false } else r)).filter
        (fun r => r.productId == pid && r.isActive)).map Review.grade =
      (l.filter (fun r => r.productId == pid && r.isActive && !(r.id == rid))).map
        Review.grade
  | [] => rfl
  | a :: t => by
    rw [List.map_cons]
    cases ha : a.id == rid with
    | true =>
      rw [if_pos rfl]
      rw [List.filter_cons, List.filter_cons]
      have h1 : (a.productId == pid &&
          ({ a with isActive := false } : Review).isActive) = false := by
        simp
      have h2 : (a.productId == pid && a.isActive && !(a.id == rid)) = false := by
        rw [ha]
        simp
      rw [h1, h2]
      simp only [Bool.false_eq_true, if_false]
      exact filter_deactivate rid pid t
    | false =>
      rw [if_neg (by simp [ha])]
      rw [List.filter_cons, List.filter_cons]
      have h2 : (a.productId == pid && a.isActive && !(a.id == rid)) =
          (a.productId == pid && a.isActive) := by
        rw [ha]
        simp
      rw [h2]
      cases hpa : a.productId == pid && a.isActive with
      | true =>
        simp only [if_true]
        rw [List.map_cons, List.map_cons, filter_deactivate rid pid t]
      | false =>
        simp only [Bool.false_eq_true, if_false]
        exact filter_deactivate rid pid t

theorem activeGrades_deactivate (db : DB) (rid pid : Nat) :
    activeGrades (deactivateReview db rid) pid =
      (db.reviews.filter
        (fun r => r.productId == pid && r.isActive && !(r.id == rid))).map
        Review.grade :=
  filter_deactivate rid pid db.reviews

theorem deactivateReview_products (db : DB) (rid : Nat) :
    (deactivateReview db rid).products = db.products := rfl

/-! ### Characterizations of the review handlers' successful paths -/

theorem createReview_eq (db : DB) (rc : ReviewCreate) (uid now : Nat)
    (hprod : (db.products.find? (fun q => q.id == rc.productId && q.isActive)).isSome)
    (hg : 1 ≤ rc.grade ∧ rc.grade ≤ 5) :
    createReview db rc uid now =
      .ok (ratingWrite (insertReview db rc uid now) rc.productId,
           newReview db rc uid now) := by
  obtain ⟨p, hp⟩ := Option.isSome_iff_exists.mp
    (dbGetProduct_isSome_of_activeFind db rc.productId hprod)
  have hno : (db.products.find? (fun q => q.id == rc.productId && q.isActive)).isNone
      = false := by
    rw [Option.isNone_eq_false_iff]
    exact hprod
  unfold createReview
  rw [hno]
  simp only [Bool.false_eq_true, if_false, if_neg (not_not_intro hg)]
  have hp1 : dbGetProduct (insertReview db rc uid now) rc.productId = some p := hp
  rw [updateProductRating_ok _ _ p hp1]

theorem deleteReview_eq (db : DB) (rid : Nat) (r : Review) (p : Product)
    (hfind : db.reviews.find? (fun x => x.id == rid && x.isActive) = some r)
    (hp : dbGetProduct db r.productId = some p) :
    deleteReview db rid =
      .ok (ratingWrite (deactivateReview db rid) r.productId, "Review deleted") := by
  have hp1 : dbGetProduct (deactivateReview db rid) r.productId = some p := hp
  simp only [deleteReview, hfind, updateProductRating_ok _ _ p hp1]

/-! ### Lemmas for idempotence and for the frame claims -/

/-- Writing the same rating twice is the same as writing it once. -/
theorem map_write_idem (v : ℚ) (pid : Nat) :
    ∀ l : List Product,
      ((l.map (fun q => if q.id == pid then { q with rating := v } else q)).map
        (fun q => if q.id == pid then { q with rating := v } else q)) =
      l.map (fun q => if q.id == pid then { q with rating := v } else q)
  | [] => rfl
  | a :: t => by
    simp only [List.map_cons, map_write_idem v pid t]
    by_cases ha : (a.id == pid) = true
    · simp [ha]
    · simp [ha]

theorem ratingWrite_idem (db : DB) (pid : Nat) :
    ratingWrite (ratingWrite db pid) pid = ratingWrite db pid := by
  have hg : activeGrades (ratingWrite db pid) pid = activeGrades db pid := rfl
  show { db with
      products := ((db.products.map _).map (fun q =>
        if q.id == pid then
          { q with rating := meanOrZero (activeGrades (ratingWrite db pid) pid) }
        else q) : List Product) } =
    ({ db with products := db.products.map _ } : DB)
  rw [hg, map_write_idem]

/-- A map over the product table that changes neither ids nor ratings leaves
every product's persisted rating unchanged. -/
theorem ratingOf_map_preserving (db : DB) (f : Product → Product)
    (hid : ∀ q, (f q).id = q.id) (hr : ∀ q, (f q).rating = q.rating) (i : Nat) :
    ratingOf { db with products := db.products.map f } i = ratingOf db i := by
  unfold ratingOf dbGetProduct
  show ((db.products.map f).find? _).map _ = _
  rw [find?_map_pred f _ (fun x => by rw [hid x])]
  cases db.products.find? (fun q => q.id == i) with
  | none => rfl
  | some a => simp [hr a]

theorem find?_append_left {α : Type} (l m : List α) (p : α → Bool) (a : α)
    (h : l.find? p = some a) : (l ++ m).find? p = some a := by
  rw [List.find?_append, h]
  rfl

/-- Appending fresh rows to the product table does not change the persisted
rating of any product that was already present. -/
theorem ratingOf_append_products (db : DB) (l : List Product) (n i : Nat)
    (hi : (dbGetProduct db i).isSome) :
    ratingOf { db with products := db.products ++ l, nextProductId := n } i =
      ratingOf db i := by
  obtain ⟨a, ha⟩ := Option.isSome_iff_exists.mp hi
  have ha' : db.products.find? (fun q => q.id == i) = some a := ha
  unfold ratingOf dbGetProduct
  show ((db.products ++ l).find? _).map _ = _
  rw [find?_append_left _ _ _ a ha', ha']

/-! ### The claims -/

/-- C1: after a completed run of the rating recomputation
(`update_product_rating`) for a product, that product's stored rating equals
the arithmetic mean of the grades of all reviews with that `product_id` and
`is_active = true`, and equals 0 when no such active review exists
(`meanOrZero` is that mean, with 0 for the empty set). -/
theorem rating_is_mean_after_recompute (db : DB) (pid : Nat) (db' : DB)
    (h : updateProductRating db pid = .ok db') :
    ratingOf db' pid = some (meanOrZero (activeGrades db' pid)) ∧
    (activeGrades db' pid = [] → ratingOf db' pid = some 0) := by
  cases hf : dbGetProduct db pid with
  | none =>
    rw [updateProductRating_err db pid hf] at h
    exact absurd h (by simp)
  | some p =>
    rw [updateProductRating_ok db pid p hf] at h
    injection h with h1
    subst h1
    have hmean : ratingOf (ratingWrite db pid) pid =
        some (meanOrZero (activeGrades db pid)) :=
      ratingOf_ratingWrite_self db pid p hf
    refine ⟨?_, ?_⟩
    · rw [activeGrades_ratingWrite]
      exact hmean
    · intro hempty
      rw [activeGrades_ratingWrite] at hempty
      rw [hmean, hempty]
      rfl

/-- C2: soft-deleting an active review succeeds and recomputes the rating of
the review's product as the mean of the grades of the remaining active
reviews (all active reviews of that product other than the deleted one);
when no such review remains, `meanOrZero` of the empty list is 0. -/
theorem delete_review_recomputes_mean (db : DB) (rid : Nat) (r : Review)
    (p : Product)
    (hfind : db.reviews.find? (fun x => x.id == rid && x.isActive) = some r)
    (hp : dbGetProduct db r.productId = some p) :
    ∃ db', deleteReview db rid = .ok (db', "Review deleted") ∧
      ratingOf db' r.productId = some (meanOrZero
        ((db.reviews.filter (fun x =>
          x.productId == r.productId && x.isActive && !(x.id == rid))).map
          Review.grade)) := by
  refine ⟨ratingWrite (deactivateReview db rid) r.productId,
    deleteReview_eq db rid r p hfind hp, ?_⟩
  have hp1 : dbGetProduct (deactivateReview db rid) r.productId = some p := hp
  rw [ratingOf_ratingWrite_self _ _ p hp1, activeGrades_deactivate]

/-- C3: with an existing active product, `create_review` rejects any grade
outside `[1, 5]` with the 400 error (so no review is stored and the
aggregator is never reached, the error carrying no new state), and accepts
any grade inside `[1, 5]` — in particular it rejects 0 and 6 and accepts 1
and 5 — storing a review with exactly the requested grade. -/
theorem create_review_grade_range_check (db : DB) (rc : ReviewCreate)
    (uid now : Nat)
    (hprod : (db.products.find? (fun q => q.id == rc.productId && q.isActive)).isSome) :
    (¬(1 ≤ rc.grade ∧ rc.grade ≤ 5) →
      createReview db rc uid now =
        .error (ApiError.http 400 "Grade should be from 1 to 5")) ∧
    ((1 ≤ rc.grade ∧ rc.grade ≤ 5) →
      ∃ db' rev, createReview db rc uid now = .ok (db', rev) ∧
        rev.grade = rc.grade) := by
  have hno : (db.products.find?
      (fun q => q.id == rc.productId && q.isActive)).isNone = false := by
    rw [Option.isNone_eq_false_iff]
    exact hprod
  constructor
  · intro hbad
    unfold createReview
    rw [hno]
    simp only [Bool.false_eq_true, if_false]
    rw [if_pos hbad]
  · intro hg
    exact ⟨_, _, createReview_eq db rc uid now hprod hg, rfl⟩

/-- C4: each invocation of the rating recomputation either succeeds — the
product's rating is set to the recomputed mean, every other product's rating
is untouched and the review table is unchanged — or fails with an error that
carries no successor state, so the previous rating stays in place (no
partial write). -/
theorem recompute_atomic_or_fails (db : DB) (pid : Nat) :
    (∃ db', updateProductRating db pid = .ok db' ∧
      ratingOf db' pid = some (meanOrZero (activeGrades db pid)) ∧
      (∀ q, q ≠ pid → ratingOf db' q = ratingOf db q) ∧
      db'.reviews = db.reviews) ∨
    (updateProductRating db pid = .error ApiError.attrErrorNoneType ∧
      dbGetProduct db pid = none) := by
  cases hf : dbGetProduct db pid with
  | none => exact Or.inr ⟨updateProductRating_err db pid hf, hf.symm ▸ rfl⟩
  | some p =>
    exact Or.inl ⟨ratingWrite db pid, updateProductRating_ok db pid p hf,
      ratingOf_ratingWrite_self db pid p hf,
      fun q hq => ratingOf_ratingWrite_other db pid q hq, rfl⟩

/-- C6: when the productId passed to the rating recomputation references no
product row, the run surfaces the `AttributeError` on `None` to the caller
and no successful state (hence no rating write) is produced. -/
theorem recompute_missing_product_fails (db : DB) (pid : Nat)
    (h : dbGetProduct db pid = none) :
    updateProductRating db pid = .error ApiError.attrErrorNoneType ∧
    ∀ db', updateProductRating db pid ≠ .ok db' := by
  refine ⟨updateProductRating_err db pid h, ?_⟩
  intro db' hok
  rw [updateProductRating_err db pid h] at hok
  exact absurd hok (by simp)

/-- C8: creating a review with grade `g` (any integer with `1 ≤ g ≤ 5`) for
an active product that has no active reviews yet yields a stored rating
exactly equal to `g` — the mean of the one-element grade list is exact, with
no rounding. -/
theorem first_review_rating_exact (db : DB) (rc : ReviewCreate)
    (uid now : Nat)
    (hprod : (db.products.find? (fun q => q.id == rc.productId && q.isActive)).isSome)
    (hg : 1 ≤ rc.grade ∧ rc.grade ≤ 5)
    (hnone : activeGrades db rc.productId = []) :
    ∃ db' rev, createReview db rc uid now = .ok (db', rev) ∧
      ratingOf db' rc.productId = some ((rc.grade : ℚ)) := by
  obtain ⟨p, hp⟩ := Option.isSome_iff_exists.mp
    (dbGetProduct_isSome_of_activeFind db rc.productId hprod)
  have hp1 : dbGetProduct (insertReview db rc uid now) rc.productId = some p := hp
  refine ⟨_, _, createReview_eq db rc uid now hprod hg, ?_⟩
  rw [ratingOf_ratingWrite_self _ _ p hp1, activeGrades_insertReview, hnone]
  simp [meanOrZero]

/-- C9: a second run of the rating recomputation with no intervening review
change returns the state of the first run unchanged — in particular the
rating after each of the two invocations is the same value. -/
theorem recompute_rating_idempotent (db db1 : DB) (pid : Nat)
    (h : updateProductRating db pid = .ok db1) :
    updateProductRating db1 pid = .ok db1 := by
  cases hf : dbGetProduct db pid with
  | none =>
    rw [updateProductRating_err db pid hf] at h
    exact absurd h (by simp)
  | some p =>
    rw [updateProductRating_ok db pid p hf] at h
    injection h with h1
    subst h1
    have hp1 : dbGetProduct (ratingWrite db pid) pid =
        some { p with rating := meanOrZero (activeGrades db pid) } := by
      rw [dbGetProduct_ratingWrite, hf, Option.map_some',
        dbGetProduct_id db pid p hf, if_pos rfl]
    rw [updateProductRating_ok _ _ _ hp1, ratingWrite_idem]

/-- C10: `create_review` checks the product before the grade: whenever the
requested `product_id` matches no active product, it fails with the 404
error whatever the grade is, and no rejection path produces a success state
(so no review row is added and no rating changes). -/
theorem product_check_precedes_grade_check (db : DB) (rc : ReviewCreate)
    (uid now : Nat)
    (h : db.products.find? (fun q => q.id == rc.productId && q.isActive) = none) :
    createReview db rc uid now =
      .error (ApiError.http 404 "Product not found or inactive") ∧
    ∀ db' rev, createReview db rc uid now ≠ .ok (db', rev) := by
  have h404 : createReview db rc uid now =
      .error (ApiError.http 404 "Product not found or inactive") := by
    unfold createReview
    rw [h]
    rfl
  refine ⟨h404, ?_⟩
  intro db' rev hok
  rw [h404] at hok
  exact absurd hok (by simp)

/-- C5: two review creations for the same active product, each wrapped in a
transaction isolated against that product row (modelled by the serializable
order: the second create runs on the state the first committed), both
succeed and both grades are reflected in the final persisted rating — the
mean over the prior active grades plus both new grades, so neither update is
lost.  The other serial order is the same statement with the two requests
swapped. -/
theorem concurrent_creates_both_counted (db : DB) (pid : Nat)
    (rc1 rc2 : ReviewCreate) (u1 u2 t1 t2 : Nat)
    (h1p : rc1.productId = pid) (h2p : rc2.productId = pid)
    (hprod : (db.products.find? (fun q => q.id == pid && q.isActive)).isSome)
    (hg1 : 1 ≤ rc1.grade ∧ rc1.grade ≤ 5)
    (hg2 : 1 ≤ rc2.grade ∧ rc2.grade ≤ 5) :
    ∃ dbA revA dbB revB,
      createReview db rc1 u1 t1 = .ok (dbA, revA) ∧
      createReview dbA rc2 u2 t2 = .ok (dbB, revB) ∧
      ratingOf dbB pid =
        some (meanOrZero (activeGrades db pid ++ [rc1.grade, rc2.grade])) := by
  subst h1p
  have hA := createReview_eq db rc1 u1 t1 hprod hg1
  have hprodA : (((ratingWrite (insertReview db rc1 u1 t1)
      rc1.productId).products).find?
      (fun q => q.id == rc2.productId && q.isActive)).isSome := by
    rw [h2p, activeFind_ratingWrite]
    exact hprod
  have hB := createReview_eq (ratingWrite (insertReview db rc1 u1 t1)
    rc1.productId) rc2 u2 t2 hprodA hg2
  refine ⟨_, _, _, _, hA, hB, ?_⟩
  rw [h2p]
  have hprodA' : (((ratingWrite (insertReview db rc1 u1 t1)
      rc1.productId).products).find?
      (fun q => q.id == rc1.productId && q.isActive)).isSome := by
    rw [activeFind_ratingWrite]
    exact hprod
  obtain ⟨p2, hp2⟩ := Option.isSome_iff_exists.mp
    (dbGetProduct_isSome_of_activeFind _ rc1.productId hprodA')
  have hp2' : dbGetProduct (insertReview (ratingWrite (insertReview db rc1
      u1 t1) rc1.productId) rc2 u2 t2) rc1.productId = some p2 := hp2
  have e2 := activeGrades_insertReview (ratingWrite (insertReview db rc1 u1 t1)
    rc1.productId) rc2 u2 t2
  rw [h2p] at e2
  rw [ratingOf_ratingWrite_self _ _ p2 hp2', e2, activeGrades_ratingWrite,
    activeGrades_insertReview db rc1 u1 t1, List.append_assoc]
  rfl

/-- C7: the rating recomputation is the only writer of the `rating` field:
creating a product leaves every existing product's rating unchanged,
updating a product overwrites only the `ProductCreate` fields (never
`rating`) of any row, soft-deleting a product flips only `is_active`, and
all read endpoints return the state unchanged. -/
theorem rating_written_only_by_recompute (db : DB) (pc : ProductCreate)
    (uid pid cid : Nat) :
    (∀ db' q, createProduct db pc uid = .ok (db', q) →
      ∀ i, (dbGetProduct db i).isSome → ratingOf db' i = ratingOf db i) ∧
    (∀ db' q, updateProduct db pid pc uid = .ok (db', q) →
      ∀ i, ratingOf db' i = ratingOf db i) ∧
    (∀ db' q, deleteProduct db pid uid = .ok (db', q) →
      ∀ i, ratingOf db' i = ratingOf db i) ∧
    (getAllProducts db).1 = db ∧
    (∀ res, getProductsByCategory db cid = .ok res → res.1 = db) ∧
    (∀ res, getProduct db pid = .ok res → res.1 = db) ∧
    (getAllReviews db).1 = db ∧
    (∀ res, getReviewByProduct db pid = .ok res → res.1 = db) := by
  refine ⟨?_, ?_, ?_, rfl, ?_, ?_, rfl, ?_⟩
  · intro db' q hok i hi
    simp only [createProduct] at hok
    split at hok
    · simp at hok
    · injection hok with h1
      injection h1 with hdb hq
      subst hdb
      exact ratingOf_append_products db _ _ i hi
  · intro db' q hok i
    simp only [updateProduct] at hok
    split at hok
    · simp at hok
    · split at hok
      · simp at hok
      · split at hok
        · simp at hok
        · injection hok with h1
          injection h1 with hdb hq
          subst hdb
          exact ratingOf_map_preserving db _
            (fun x => by split <;> rfl) (fun x => by split <;> rfl) i
  · intro db' q hok i
    simp only [deleteProduct] at hok
    split at hok
    · simp at hok
    · split at hok
      · simp at hok
      · injection hok with h1
        injection h1 with hdb hq
        subst hdb
        exact ratingOf_map_preserving db _
          (fun x => by split <;> rfl) (fun x => by split <;> rfl) i
  · intro res hok
    simp only [getProductsByCategory] at hok
    split at hok
    · simp at hok
    · injection hok with h1
      rw [← h1]
  · intro res hok
    simp only [getProduct] at hok
    split at hok
    · simp at hok
    · injection hok with h1
      rw [← h1]
  · intro res hok
    simp only [getReviewByProduct] at hok
    split at hok
    · simp at hok
    · injection hok with h1
      rw [← h1]

/-! ### The claims at concrete inputs -/

/-- C1 at a concrete state: recomputing over active grades 4 and 2 stores
their mean. -/
theorem rating_is_mean_after_recompute_example :
    ratingOf dbTwoReviewsAfter 1 =
      some (meanOrZero (activeGrades dbTwoReviewsAfter 1)) ∧
    (activeGrades dbTwoReviewsAfter 1 = [] →
      ratingOf dbTwoReviewsAfter 1 = some 0) :=
  rating_is_mean_after_recompute dbTwoReviews 1 dbTwoReviewsAfter (by
    norm_num [updateProductRating, dbGetProduct, activeGrades, sqlAvg,
      scalarOrZero, dbTwoReviews, dbTwoReviewsAfter, prodW, catW, revW,
      List.find?, List.filter])

/-- C2 at the spec's own example: active grades 5, 5, 1; soft-deleting the
grade-1 review leaves the mean of the remaining grades. -/
theorem delete_review_recomputes_mean_example :
    ∃ db', deleteReview dbThreeReviews 3 = .ok (db', "Review deleted") ∧
      ratingOf db' (revW 3 1 true).productId = some (meanOrZero
        ((dbThreeReviews.reviews.filter (fun x =>
          x.productId == (revW 3 1 true).productId && x.isActive &&
            !(x.id == 3))).map Review.grade)) :=
  delete_review_recomputes_mean dbThreeReviews 3 (revW 3 1 true) prodW
    (by decide) (by decide)

/-- C3 at a concrete input: grade 0 for an existing active product is
rejected with the 400 error. -/
theorem create_review_grade_range_check_example :
    createReview dbNoReviews (rcGrade 0) 7 0 =
      .error (ApiError.http 400 "Grade should be from 1 to 5") :=
  (create_review_grade_range_check dbNoReviews (rcGrade 0) 7 0 (by decide)).1
    (by decide)

/-- C5 at a concrete input: two serialized creations with grades 5 and 3
both succeed and both grades enter the final rating. -/
theorem concurrent_creates_both_counted_example :
    ∃ dbA revA dbB revB,
      createReview dbNoReviews (rcGrade 5) 7 0 = .ok (dbA, revA) ∧
      createReview dbA (rcGrade 3) 8 1 = .ok (dbB, revB) ∧
      ratingOf dbB 1 = some (meanOrZero (activeGrades dbNoReviews 1 ++
        [(rcGrade 5).grade, (rcGrade 3).grade])) :=
  concurrent_creates_both_counted dbNoReviews 1 (rcGrade 5) (rcGrade 3)
    7 8 0 1 rfl rfl (by decide) (by decide) (by decide)

/-- C6 at a concrete input: recomputing for a product id with no product
row fails with the `None` attribute error. -/
theorem recompute_missing_product_fails_example :
    updateProductRating dbNoProducts 1 = .error ApiError.attrErrorNoneType ∧
    ∀ db', updateProductRating dbNoProducts 1 ≠ .ok db' :=
  recompute_missing_product_fails dbNoProducts 1 (by decide)

/-- C8 at a concrete input: a first review with grade 5 stores rating
exactly 5. -/
theorem first_review_rating_exact_example :
    ∃ db' rev, createReview dbNoReviews (rcGrade 5) 7 0 = .ok (db', rev) ∧
      ratingOf db' (rcGrade 5).productId = some (((rcGrade 5).grade : ℚ)) :=
  first_review_rating_exact dbNoReviews (rcGrade 5) 7 0 (by decide)
    (by decide) (by decide)

/-- C9 at a concrete input: recomputing again after the 4-and-2 state was
recomputed returns the same state. -/
theorem recompute_rating_idempotent_example :
    updateProductRating dbTwoReviewsAfter 1 = .ok dbTwoReviewsAfter :=
  recompute_rating_idempotent dbTwoReviews dbTwoReviewsAfter 1 (by
    norm_num [updateProductRating, dbGetProduct, activeGrades, sqlAvg,
      scalarOrZero, dbTwoReviews, dbTwoReviewsAfter, prodW, catW, revW,
      List.find?, List.filter])

/-- C10 at a concrete input: with no matching product, even an out-of-range
grade (6) is answered with the 404 product error. -/
theorem product_check_precedes_grade_check_example :
    createReview dbNoProducts (rcGrade 6) 7 0 =
      .error (ApiError.http 404 "Product not found or inactive") ∧
    ∀ db' rev, createReview dbNoProducts (rcGrade 6) 7 0 ≠ .ok (db', rev) :=
  product_check_precedes_grade_check dbNoProducts (rcGrade 6) 7 0 (by decide)

end EcommerceRating
